import Mathlib

/-!
Verification development for the scriptgenerator pipeline
(steps_preprocessor.py, intent_generator.py, intent_validator.py,
javascript_code_generator.py, main.py), as a shallow embedding in Lean.

Python dictionaries are modelled as structures over the fields the code
reads (`dict.get` with a default becomes a field with that default; an
absent optional value is the default).  Python strings are Lean `String`s;
Python truthiness of a string is the test `≠ ""`, and `Option String`
models values that may be Python `None`.  All definitions are executable.
-/

namespace ScriptGen

/-- The single-quote character `'` (ASCII 39), used when building selector
strings such as `[name='...']`. -/
def sqChar : Char := Char.ofNat 39

/-- The single-quote string, used when building selector strings. -/
def sq : String := String.mk [sqChar]

/-- Python `str` whitespace for `strip`/`split`/`\s` (ASCII part):
space, tab, newline, vertical tab, form feed, carriage return. -/
def is_py_space (c : Char) : Bool :=
  c = ' ' ∨ c = '\t' ∨ c = '\n' ∨ c = '\x0b' ∨ c = '\x0c' ∨ c = '\r'

/-- Characters of a string after Python `str.strip()` (both ends). -/
def py_strip_chars (cs : List Char) : List Char :=
  ((cs.dropWhile is_py_space).reverse.dropWhile is_py_space).reverse

/-- Python `str.strip()` with no argument. -/
def py_strip (s : String) : String := String.mk (py_strip_chars s.toList)

/-- Helper for `py_split_ws`: split on runs of whitespace, accumulating the
current word in reverse. -/
def py_split_ws_aux : List Char → List Char → List String
  | [], acc => if acc.isEmpty then [] else [String.mk acc.reverse]
  | c :: cs, acc =>
    if is_py_space c then
      if acc.isEmpty then py_split_ws_aux cs []
      else String.mk acc.reverse :: py_split_ws_aux cs []
    else py_split_ws_aux cs (c :: acc)

/-- Python `str.split()` with no argument: split on whitespace runs,
dropping empty pieces. -/
def py_split_ws (s : String) : List String := py_split_ws_aux s.toList []

/-- Whether the first list is an initial segment of the second
(Python `str.startswith` on character lists). -/
def list_starts : List Char → List Char → Bool
  | [], _ => true
  | _ :: _, [] => false
  | p :: ps, c :: cs => p = c ∧ list_starts ps cs

/-- Python `str.startswith(pat)`. -/
def py_starts (s pat : String) : Bool := list_starts pat.toList s.toList

/-- Lowest index `≥ i` at which `pat` occurs in `s` (character lists). -/
def find_from : List Char → List Char → Nat → Option Nat
  | pat, [], i => if pat.isEmpty then some i else none
  | pat, s@(_ :: rest), i =>
    if list_starts pat s then some i else find_from pat rest (i + 1)

/-- Python `str.find(pat, start)`: lowest index `≥ start`, or `-1`. -/
def py_find_from (s pat : String) (start : Nat) : Int :=
  match find_from pat.toList (s.toList.drop start) 0 with
  | some i => ((start + i : Nat) : Int)
  | none => -1

/-- Python `str.find(pat)`. -/
def py_find (s pat : String) : Int := py_find_from s pat 0

/-- Python `pat in s` (substring containment). -/
def py_contains (s pat : String) : Bool := py_find s pat ≠ -1

/-- Python slice `s[a:b]` with a possibly negative upper bound. -/
def py_slice (s : String) (a : Nat) (b : Int) : String :=
  let n := s.length
  let b' : Nat := if b < 0 then (if b + n < 0 then 0 else (b + n).toNat) else min b.toNat n
  String.mk ((s.toList.drop a).take (b' - a))

/-! ## Data model: preprocessed steps and intents (intent_validator.py) -/

/-- The `original_step` dictionary as read by `IntentValidator` and the code
generator: only the keys the embedded code inspects, with `dict.get`
defaults. -/
structure Step where
  is_context_event : Bool := false
  normalized_action : String := ""
  eventElement : String := ""
  clean_url : String := ""
  url : String := ""
deriving DecidableEq

/-- An intent object handed to `IntentValidator.validate_single_intent`
(keys read via `.get` with defaults). -/
structure IntentObj where
  intent : String := ""
  event_type : String := ""
  selector : String := ""
  original_step : Step := {}
deriving DecidableEq

/-- The cleaned intent dictionary built by `validate_single_intent`.
`selector` is `Option String` because the Python value can be `None`
(extraction failure for an action that needs no selector). -/
structure CleanedIntent where
  step_index : Nat
  event_type : String
  intent : String
  selector : Option String
  original_step : Step
  is_context_event : Bool
deriving DecidableEq

/-- `IntentValidator._action_requires_selector`. -/
def action_requires_selector (event_type : String) : Bool :=
  let needing : List String :=
    ["STEPS_FEATURE_CLICK_EVENT", "STEPS_FEATURE_TYPE_EVENT",
     "STEPS_FEATURE_SCROLL_EVENT", "STEPS_FEATURE_HOVER_EVENT",
     "click", "type", "select", "submit", "hover"]
  let notNeeding : List String :=
    ["STEPS_FEATURE_TAB_VISIBLE_EVENT", "STEPS_FEATURE_NAVIGATE_EVENT",
     "STEPS_FEATURE_WAIT_EVENT", "PREPROCESSED"]
  if needing.contains event_type then true
  else if notNeeding.contains event_type then false
  else true

/-- One attribute probe of `IntentValidator._extract_stable_selector`:
look for `pat` (e.g. `id="`), take the text up to the next `"`, and if it
is non-blank return `mk` of it; `offset` is `len(pat)`. -/
def attr_probe (html pat : String) (offset : Nat) (mk : String → String) : Option String :=
  if py_contains html pat then
    let start := (py_find html pat).toNat + offset
    let e := py_find_from html "\"" start
    let v := py_slice html start e
    if v ≠ "" ∧ py_strip v ≠ "" then some (mk v) else none
  else none

/-- The class probe of `_extract_stable_selector`: first class token only. -/
def class_probe (html : String) : Option String :=
  if py_contains html "class=\"" then
    let start := (py_find html "class=\"").toNat + 7
    let e := py_find_from html "\"" start
    let classes := py_slice html start e
    if classes ≠ "" ∧ py_strip classes ≠ "" then
      match py_split_ws classes with
      | c :: _ => if c ≠ "" then some ("." ++ c) else none
      | [] => none
    else none
  else none

/-- The tag fallback of `_extract_stable_selector`:
`re.match(r"<([a-zA-Z0-9]+)", html)`. -/
def tag_probe (html : String) : Option String :=
  match html.toList with
  | '<' :: rest =>
    let run := rest.takeWhile Char.isAlphanum
    let tag := String.mk run
    if tag ≠ "" ∧ py_strip tag ≠ "" then some tag else none
  | _ => none

/-- `IntentValidator._extract_stable_selector`: priority
id > data-testid > name > aria-label > class (first token) > bare tag.
Each probe is a sequential `'attr="' in html` check, exactly as in the
source (`find`-based, not an HTML parse). -/
def extract_stable_selector (html : String) : Option String :=
  if html = "" then none
  else
    match attr_probe html "id=\"" 4 (fun v => "#" ++ v) with
    | some s => some s
    | none =>
      match attr_probe html "data-testid=\"" 13 (fun v => "[data-testid=\"" ++ v ++ "\"]") with
      | some s => some s
      | none =>
        match attr_probe html "name=\"" 6 (fun v => "[name=\"" ++ v ++ "\"]") with
        | some s => some s
        | none =>
          match attr_probe html "aria-label=\"" 12 (fun v => "[aria-label=\"" ++ v ++ "\"]") with
          | some s => some s
          | none =>
            match class_probe html with
            | some s => some s
            | none => tag_probe html

/-! ## The selector grammar checker (`_is_valid_css_selector`) -/

/-- Character class of `^[{}()>]` / `[{}()>]$` in `_is_valid_css_selector`. -/
def invalid_edge_char (c : Char) : Bool :=
  c = '\x7b' ∨ c = '\x7d' ∨ c = '(' ∨ c = ')' ∨ c = '>'

/-- Regex `\w`: word character. -/
def is_word_char (c : Char) : Bool := c.isAlphanum ∨ c = '_'

/-- Character class `[a-zA-Z0-9_-]` used in the shape checks. -/
def word_dash (c : Char) : Bool := c.isAlphanum ∨ c = '_' ∨ c = '-'

/-- `re.search(r'\s{2,}', s)`: two consecutive whitespace characters. -/
def has_double_space : List Char → Bool
  | a :: b :: rest => (is_py_space a ∧ is_py_space b) ∨ has_double_space (b :: rest)
  | _ => false

/-- `re.search(r'^>\s*\w', s)`. -/
def starts_child_orphan (cs : List Char) : Bool :=
  match cs with
  | '>' :: rest => is_word_char ((rest.dropWhile is_py_space).headD ' ')
  | _ => false

/-- `re.match(r'^[a-zA-Z]+\s*>\s*$', s)`: an element name followed by a
lone `>`. -/
def elem_lone_gt (cs : List Char) : Bool :=
  (cs.headD ' ').isAlpha &&
    (match (cs.dropWhile Char.isAlpha).dropWhile is_py_space with
     | '>' :: rest => rest.all is_py_space
     | _ => false)

/-- The `valid_elements` set of `_is_valid_css_selector`. -/
def valid_elements : List String :=
  ["div", "span", "p", "a", "button", "input", "form", "label",
   "h1", "h2", "h3", "h4", "h5", "h6", "ul", "ol", "li",
   "table", "tr", "td", "th", "img", "video", "audio",
   "section", "article", "nav", "header", "footer", "main"]

/-- The final shape checks of `_is_valid_css_selector`, per first
character: `#x` and `.x` must be a non-empty `[A-Za-z0-9_-]+` body;
`[x]` must match `^\[[a-zA-Z0-9_-]+.*\]$` (second character in the class,
closing bracket at the end, length at least 3); a pure-alphabetic word is
checked against the element list and the pattern
`^[a-zA-Z][a-zA-Z0-9-]*$`; anything else starting with a letter passes. -/
def shape_check (cs : List Char) : Bool :=
  match cs with
  | '#' :: rest => ¬ rest.isEmpty ∧ rest.all word_dash
  | '.' :: rest => ¬ rest.isEmpty ∧ rest.all word_dash
  | '[' :: rest =>
    (match rest with
     | c :: _ => word_dash c ∧ cs.getLastD ' ' = ']' ∧ 3 ≤ cs.length
     | [] => false)
  | _ =>
    if cs.all Char.isAlpha then
      if valid_elements.contains (String.mk (cs.map Char.toLower)) then true
      else (cs.headD ' ').isAlpha ∧ (cs.drop 1).all (fun c => c.isAlphanum ∨ c = '-')
    else true

/-- `IntentValidator._is_valid_css_selector`: the standalone syntactic
selector grammar checker.  The regex patterns of the source are compiled
to direct character tests with the same semantics. -/
def is_valid_css_selector (selector : String) : Bool :=
  let s := py_strip selector
  let cs := s.toList
  if cs.isEmpty then false
  else if cs.all is_py_space then false
  else if list_starts ['[', ']'] cs then false
  else if cs = ['(', ')'] then false
  else if invalid_edge_char (cs.headD ' ') then false
  else if invalid_edge_char (cs.getLastD ' ') then false
  else if has_double_space cs then false
  else if cs.any (fun c => c = '<' ∨ c = '>') then false
  else if cs.any (fun c => c = '\n' ∨ c = '\r') then false
  else if starts_child_orphan cs then false
  else if cs.count '[' ≠ cs.count ']' then false
  else if cs.count '(' ≠ cs.count ')' then false
  else if elem_lone_gt cs then false
  else if ¬ (cs.headD ' ' = '#' ∨ cs.headD ' ' = '.' ∨ cs.headD ' ' = '[' ∨ (cs.headD ' ').isAlpha) then false
  else shape_check cs

/-! ## `validate_single_intent` and `validate_and_clean_intents` -/

/-- Result of one `validate_single_intent` call: the cleaned intent when
accepted (`none` = rejected), plus the `validation_errors` and
`validation_warnings` instance lists, which the call resets and refills. -/
structure SingleResult where
  cleaned : Option CleanedIntent
  errors : List String
  warnings : List String

/-- `IntentValidator.validate_single_intent`.  The argument `none` models
a Python `None` (or empty) intent dict. -/
def validate_single_intent (intent_obj : Option IntentObj) (step_index : Nat) : SingleResult :=
  match intent_obj with
  | none =>
    { cleaned := none,
      errors := ["Step " ++ toString step_index ++ ": Intent is None or empty"],
      warnings := [] }
  | some obj =>
    let intent := obj.intent
    let event_type := obj.event_type
    let step := obj.original_step
    if step.is_context_event ∨ step.normalized_action = "wait" then
      { cleaned := some
          { step_index := step_index,
            event_type := event_type,
            intent := if py_strip intent ≠ "" then py_strip intent else "Wait for context event",
            selector := some "",
            original_step := step,
            is_context_event := true },
        errors := [], warnings := [] }
    else if intent = "" ∨ py_strip intent = "" then
      { cleaned := none,
        errors := ["Step " ++ toString step_index ++ ": Intent text is empty"],
        warnings := [] }
    else
      let selector : Option String :=
        if obj.selector ≠ "" then some obj.selector
        else extract_stable_selector step.eventElement
      if action_requires_selector event_type then
        match selector with
        | none =>
          { cleaned := none, errors := [],
            warnings := ["Step " ++ toString step_index ++ ": Empty selector for "
              ++ event_type ++ ". Skipping step."] }
        | some sel =>
          if py_strip sel = "" then
            { cleaned := none, errors := [],
              warnings := ["Step " ++ toString step_index ++ ": Empty selector for "
                ++ event_type ++ ". Skipping step."] }
          else if ¬ is_valid_css_selector sel then
            { cleaned := none,
              errors := ["Step " ++ toString step_index ++ ": Malformed CSS selector "
                ++ sq ++ sel ++ sq],
              warnings := [] }
          else
            { cleaned := some
                { step_index := step_index, event_type := event_type,
                  intent := py_strip intent, selector := selector,
                  original_step := step, is_context_event := false },
              errors := [], warnings := [] }
      else
        { cleaned := some
            { step_index := step_index, event_type := event_type,
              intent := py_strip intent, selector := selector,
              original_step := step, is_context_event := false },
          errors := [], warnings := [] }

/-- The duplicate test of `_deduplicate_consecutive_actions`: same
`event_type`, `selector` and `intent` as the previous retained item. -/
def same_action (current previous : CleanedIntent) : Bool :=
  current.event_type = previous.event_type
    ∧ current.selector = previous.selector
    ∧ current.intent = previous.intent

/-- The loop of `_deduplicate_consecutive_actions` after the first item:
`prev` is `deduplicated[-1]`.  Returns the retained list and the dedup
warnings, in scan order. -/
def dedup_go (prev : CleanedIntent) : List CleanedIntent → List CleanedIntent × List String
  | [] => ([], [])
  | x :: xs =>
    if same_action x prev then
      let r := dedup_go prev xs
      (r.1, ("Step " ++ toString x.step_index ++ ": Removed duplicate action (same as step "
        ++ toString prev.step_index ++ ")") :: r.2)
    else
      let r := dedup_go x xs
      (x :: r.1, r.2)

/-- `IntentValidator._deduplicate_consecutive_actions`, with the warnings
it appends. -/
def deduplicate_consecutive_actions : List CleanedIntent → List CleanedIntent × List String
  | [] => ([], [])
  | x :: xs => let r := dedup_go x xs; (x :: r.1, r.2)

/-- The per-step loop of `validate_and_clean_intents`: cleaned intents,
`removed_steps` (index, last error of that call or "Unknown error"), and
the instance `validation_errors`/`validation_warnings` as they stand after
the loop (each call resets them, so they end up holding the last call's
lists). -/
def validate_loop (step_index : Nat) :
    List (Option IntentObj) → List CleanedIntent × List (Nat × String) × List String × List String
  | [] => ([], [], [], [])
  | o :: os =>
    let r := validate_single_intent o step_index
    let rest := validate_loop (step_index + 1) os
    ((match r.cleaned with | some c => c :: rest.1 | none => rest.1),
     (match r.cleaned with
      | some _ => rest.2.1
      | none => (step_index, r.errors.getLastD "Unknown error") :: rest.2.1),
     (if os.isEmpty then r.errors else rest.2.2.1),
     (if os.isEmpty then r.warnings else rest.2.2.2))

/-- The validation report of `validate_and_clean_intents`. -/
structure ValidationReport where
  total_input_intents : Nat
  total_valid_intents : Nat
  total_after_dedup : Nat
  removed_by_validation : Nat
  removed_by_dedup : Nat
  removed_steps_details : List (Nat × String)
  validation_errors : List String
  validation_warnings : List String
deriving DecidableEq

/-- `IntentValidator.validate_and_clean_intents`: validate every intent in
order, deduplicate consecutive actions, and build the report. -/
def validate_and_clean_intents (intents : List (Option IntentObj)) :
    List CleanedIntent × ValidationReport :=
  let L := validate_loop 0 intents
  let cleaned := L.1
  let removed := L.2.1
  let dd := deduplicate_consecutive_actions cleaned
  (dd.1,
   { total_input_intents := intents.length,
     total_valid_intents := cleaned.length,
     total_after_dedup := dd.1.length,
     removed_by_validation := removed.length,
     removed_by_dedup := cleaned.length - dd.1.length,
     removed_steps_details := removed,
     validation_errors := L.2.2.1,
     validation_warnings := L.2.2.2 ++ dd.2 })

/-! ## `IntentGenerator._build_selector_from_hints` (intent_generator.py) -/

/-- The `element_hints` dictionary built by the preprocessor; absent or
`None` values are the empty string (both are falsy in the source). -/
structure Hints where
  id : String := ""
  «class» : String := ""
  name : String := ""
  test_id : String := ""
  aria_label : String := ""
  tag : String := ""
deriving DecidableEq

/-- The tail of `_build_selector_from_hints` after the class branch:
test_id, then aria_label, then the empty string. -/
def hints_tail (hints : Hints) : String :=
  if hints.test_id ≠ "" then "[data-testid=" ++ sq ++ hints.test_id ++ sq ++ "]"
  else if hints.aria_label ≠ "" then "[aria-label=" ++ sq ++ hints.aria_label ++ sq ++ "]"
  else ""

/-- `IntentGenerator._build_selector_from_hints`: builds one selector from
element hints.  When the class string is truthy but splits to no token,
the source falls through to the later branches. -/
def build_selector_from_hints (hints : Hints) : String :=
  if hints.id ≠ "" then "#" ++ hints.id
  else if hints.name ≠ "" then "[name=" ++ sq ++ hints.name ++ sq ++ "]"
  else
    match (if hints.«class» ≠ "" then py_split_ws hints.«class» else []) with
    | c :: _ => "." ++ c
    | [] => hints_tail hints

/-! ## URL cleaning (`StepsPreprocessor._strip_tracking_params`,
steps_preprocessor.py), with the parts of `urllib.parse` it uses. -/

/-- The result of `urllib.parse.urlparse`. -/
structure ParsedUrl where
  scheme : String := ""
  netloc : String := ""
  path : String := ""
  params : String := ""
  query : String := ""
  fragment : String := ""
deriving DecidableEq

/-- Characters allowed in a URL scheme after the first letter. -/
def is_scheme_char (c : Char) : Bool := c.isAlphanum ∨ c = '+' ∨ c = '-' ∨ c = '.'

/-- Scheme split of `urlsplit`: a leading `name:` whose name starts with a
letter and uses only scheme characters is the (lowercased) scheme. -/
def split_scheme (s : String) : String × String :=
  let i := py_find s ":"
  if 0 < i then
    let pre := py_slice s 0 i
    if (pre.toList.headD ' ').isAlpha ∧ pre.toList.all is_scheme_char then
      (String.mk (pre.toList.map Char.toLower), py_slice s (i.toNat + 1) s.length)
    else ("", s)
  else ("", s)

/-- Netloc split of `urlsplit`: after a leading `//`, the netloc runs to
the first `/`, `?` or `#`. -/
def split_netloc (s : String) : String × String :=
  let cs := s.toList.drop 2
  let n := cs.takeWhile (fun c => ¬ (c = '/' ∨ c = '?' ∨ c = '#'))
  (String.mk n, String.mk (cs.drop n.length))

/-- Split at the first occurrence of `sep`, Python `str.split(sep, 1)`;
returns the whole string and `none` when `sep` is absent. -/
def split_once (s sep : String) : String × Option String :=
  let i := py_find s sep
  if i = -1 then (s, none)
  else (py_slice s 0 i, some (py_slice s (i.toNat + sep.length) s.length))

/-- Python `str.rfind` for a single character: last index, or `-1`. -/
def py_rfind_char (s : String) (c : Char) : Int :=
  match (s.toList.enum.filter (fun p => p.2 = c)).getLast? with
  | some p => (p.1 : Int)
  | none => -1

/-- `urllib.parse._splitparams`: parameters of the last path segment
(only called when the path contains a `;`). -/
def split_url_params (url : String) : String × String :=
  if py_contains url "/" then
    let j := py_find_from url ";" (py_rfind_char url '/').toNat
    if j < 0 then (url, "") else (py_slice url 0 j, py_slice url (j.toNat + 1) url.length)
  else
    let j := py_find url ";"
    if j < 0 then (url, "") else (py_slice url 0 j, py_slice url (j.toNat + 1) url.length)

/-- `urllib.parse.urlparse` for absolute URLs (fragments allowed), in the
order of `urlsplit`: scheme, then netloc, then fragment, then query; then
the path parameters are split off (the schemes the pipeline sees all use
parameters). -/
def urlparse (url : String) : ParsedUrl :=
  let (scheme, rest0) := split_scheme url
  let (netloc, rest1) := if py_starts rest0 "//" then split_netloc rest0 else ("", rest0)
  let (rest2, fragment) :=
    match split_once rest1 "#" with
    | (u, some f) => (u, f)
    | (u, none) => (u, "")
  let (path0, query) :=
    match split_once rest2 "?" with
    | (u, some q) => (u, q)
    | (u, none) => (u, "")
  let (path, params) := if py_contains path0 ";" then split_url_params path0 else (path0, "")
  { scheme := scheme, netloc := netloc, path := path,
    params := params, query := query, fragment := fragment }

/-- Value of a hexadecimal digit. -/
def hex_val (c : Char) : Option Nat :=
  if c.isDigit then some (c.toNat - '0'.toNat)
  else if 'a' ≤ c ∧ c ≤ 'f' then some (c.toNat - 'a'.toNat + 10)
  else if 'A' ≤ c ∧ c ≤ 'F' then some (c.toNat - 'A'.toNat + 10)
  else none

/-- `urllib.parse.unquote_plus` on characters: `+` becomes a space and
`%XX` is decoded; an invalid escape is left as-is.  Decoded byte values
are modelled as code points (the inputs the pipeline feeds it are
ASCII). -/
def unquote_chars : List Char → List Char
  | [] => []
  | '+' :: rest => ' ' :: unquote_chars rest
  | '%' :: h :: l :: rest =>
    (match hex_val h, hex_val l with
     | some a, some b => Char.ofNat (16 * a + b) :: unquote_chars rest
     | _, _ => '%' :: unquote_chars (h :: l :: rest))
  | c :: rest => c :: unquote_chars rest

/-- `urllib.parse.unquote_plus`. -/
def unquote_plus (s : String) : String := String.mk (unquote_chars s.toList)

/-- Python `str.split(sep)` for a one-character separator: empty pieces
are kept, and the empty string splits to `[""]`. -/
def py_split_chars (sep : Char) : List Char → List Char → List String
  | [], acc => [String.mk acc.reverse]
  | c :: cs, acc =>
    if c = sep then String.mk acc.reverse :: py_split_chars sep cs []
    else py_split_chars sep cs (c :: acc)

/-- Python `str.split(sep)` for a one-character separator. -/
def py_split (s : String) (sep : Char) : List String := py_split_chars sep s.toList []

/-- `urllib.parse.parse_qsl` with `keep_blank_values=False`: split the
query on `&`, keep only `name=value` fields with a non-empty value, and
unquote both sides. -/
def parse_qsl (qs : String) : List (String × String) :=
  (py_split qs '&').foldr
    (fun field acc =>
      if field = "" then acc
      else
        match split_once field "=" with
        | (_, none) => acc
        | (n, some v) => if v = "" then acc else (unquote_plus n, unquote_plus v) :: acc)
    []

/-- Add one pair to an ordered key-grouped association list (the dict
built by `parse_qs`: first-occurrence key order, values appended). -/
def add_pair (acc : List (String × List String)) (k v : String) : List (String × List String) :=
  if acc.any (fun p => p.1 = k) then
    acc.map (fun p => if p.1 = k then (p.1, p.2 ++ [v]) else p)
  else acc ++ [(k, [v])]

/-- `urllib.parse.parse_qs`, as an ordered association list. -/
def parse_qs (qs : String) : List (String × List String) :=
  (parse_qsl qs).foldl (fun a p => add_pair a p.1 p.2) []

/-- UTF-8 bytes of one character. -/
def char_utf8 (c : Char) : List Nat :=
  let n := c.toNat
  if n < 0x80 then [n]
  else if n < 0x800 then [0xC0 + n / 0x40, 0x80 + n % 0x40]
  else if n < 0x10000 then
    [0xE0 + n / 0x1000, 0x80 + (n / 0x40) % 0x40, 0x80 + n % 0x40]
  else
    [0xF0 + n / 0x40000, 0x80 + (n / 0x1000) % 0x40, 0x80 + (n / 0x40) % 0x40, 0x80 + n % 0x40]

/-- Uppercase hexadecimal digit. -/
def hex_digit (n : Nat) : Char :=
  if n < 10 then Char.ofNat ('0'.toNat + n) else Char.ofNat ('A'.toNat + n - 10)

/-- One byte under `urllib.parse.quote_plus` with `safe=''`: letters,
digits and `_.-~` stand for themselves, a space becomes `+`, anything
else becomes `%XX`. -/
def quote_plus_byte (b : Nat) : List Char :=
  let c := Char.ofNat b
  if c.isAlphanum ∨ c = '_' ∨ c = '.' ∨ c = '-' ∨ c = '~' then [c]
  else if b = 32 then ['+']
  else ['%', hex_digit (b / 16), hex_digit (b % 16)]

/-- `urllib.parse.quote_plus` with `safe=''`. -/
def quote_plus (s : String) : String :=
  String.mk ((s.toList.flatMap char_utf8).flatMap quote_plus_byte)

/-- `urllib.parse.urlencode` with `doseq=True` over an ordered key-grouped
association list. -/
def urlencode (params : List (String × List String)) : String :=
  String.intercalate "&"
    (params.flatMap (fun p => p.2.map (fun v => quote_plus p.1 ++ "=" ++ quote_plus v)))

/-- `urllib.parse.urlunparse` (via `urlunsplit`). -/
def urlunparse (p : ParsedUrl) : String :=
  let url0 := if p.params ≠ "" then p.path ++ ";" ++ p.params else p.path
  let url1 :=
    if p.netloc ≠ "" ∨ py_starts url0 "//" then
      "//" ++ p.netloc ++ (if url0 ≠ "" ∧ ¬ py_starts url0 "/" then "/" ++ url0 else url0)
    else url0
  let url2 := if p.scheme ≠ "" then p.scheme ++ ":" ++ url1 else url1
  let url3 := if p.query ≠ "" then url2 ++ "?" ++ p.query else url2
  if p.fragment ≠ "" then url3 ++ "#" ++ p.fragment else url3

/-- The fixed tracking-parameter denylist of `_strip_tracking_params`. -/
def tracking_patterns : List String :=
  ["utm_", "gad", "ref=", "adgrp", "hvp", "hvt", "hvr",
   "tag=", "crid=", "sprefix=", "rps=", "lpg="]

/-- `StepsPreprocessor._strip_tracking_params`: parse the URL, drop every
query key that starts with a denylist entry, re-encode the remaining
parameters, and rebuild the URL. -/
def strip_tracking_params (url : String) : String :=
  if url = "" then ""
  else
    let parsed := urlparse url
    let params := parse_qs parsed.query
    let filtered := params.filter (fun p => ¬ tracking_patterns.any (fun t => py_starts p.1 t))
    let new_query := urlencode filtered
    urlunparse { parsed with query := new_query }

/-! ## AST nodes and the code emitter (ast_converter.py,
javascript_code_generator.py) -/

/-- `PlaywrightActionType`. -/
inductive PwAction
  | navigate | click | fill | select | wait | scroll | hover | press | keyboard | screenshot
deriving DecidableEq, Inhabited

/-- The `.value` string of a `PlaywrightActionType` member. -/
def PwAction.val : PwAction → String
  | .navigate => "navigate"
  | .click => "click"
  | .fill => "fill"
  | .select => "select"
  | .wait => "wait"
  | .scroll => "scroll"
  | .hover => "hover"
  | .press => "press"
  | .keyboard => "keyboard"
  | .screenshot => "screenshot"

/-- A `PlaywrightAST` node (the child list is always empty in this core
and is omitted). -/
structure AstNode where
  action : PwAction
  selector : Option String := none
  value : Option String := none
  url : Option String := none
  wait_time : Nat := 5000
  description : String := ""
deriving DecidableEq, Inhabited

/-- Python truthiness of an optional string: not `None` and non-empty. -/
def opt_truthy : Option String → Bool
  | some s => s ≠ ""
  | none => false

/-- An optional string with `None` read as `""`. -/
def opt_str (o : Option String) : String := o.getD ""

/-- `JavaScriptCodeGenerator._escape_string`. -/
def escape_string (text : String) : String :=
  if text = "" then ""
  else
    String.mk (text.toList.flatMap (fun c =>
      if c = '"' then ['\\', '"']
      else if c = '\n' then ['\\', 'n']
      else if c = '\r' then ['\\', 'r']
      else if c = '\t' then ['\\', 't']
      else [c]))

/-- The selector escaping inside `_get_locator_with_occurrence`:
`replace("'", "\\'")` then `replace('"', '\\"')`. -/
def js_escape_sel (s : String) : String :=
  String.mk (s.toList.flatMap (fun c =>
    if c = sqChar then ['\\', sqChar]
    else if c = '"' then ['\\', '"']
    else [c]))

/-- `JavaScriptCodeGenerator._is_valid_selector` (the emitter's own final
selector check; simpler than the validator's grammar checker). -/
def is_valid_selector_codegen (selector : String) : Bool :=
  if selector = "" then false
  else
    let cs := selector.toList
    ¬ (invalid_edge_char (cs.headD ' ') ∨ invalid_edge_char (cs.getLastD ' ')
       ∨ cs.any (fun c => c = '<' ∨ c = '>') ∨ elem_lone_gt cs)

/-- The action types whose emission uses a locator, as listed in
`_analyze_selector_usage` and `_is_node_safe_for_codegen`. -/
def locator_actions : List PwAction := [.click, .fill, .select, .hover]

/-- `JavaScriptCodeGenerator._is_node_safe_for_codegen`, returning the
verdict together with the `code_errors` entries the call appends. -/
def is_node_safe_for_codegen (node : AstNode) (step_idx : Nat) : Bool × List String :=
  if node.action = .wait then (true, [])
  else if node.action ∈ locator_actions then
    if ¬ opt_truthy node.selector ∨ py_strip (opt_str node.selector) = "" then
      (false, ["Step " ++ toString step_idx ++ ": Missing selector for " ++ node.action.val])
    else if ¬ is_valid_selector_codegen (opt_str node.selector) then
      (false, ["Step " ++ toString step_idx ++ ": Malformed selector " ++ sq
        ++ opt_str node.selector ++ sq ++ " rejected"])
    else (true, [])
  else if node.action = .navigate then
    if ¬ opt_truthy node.url ∨ py_strip (opt_str node.url) = "" then
      (false, ["Step " ++ toString step_idx ++ ": Missing URL for navigate action"])
    else (true, [])
  else (true, [])

/-- `JavaScriptCodeGenerator._validate_all_nodes_before_codegen`:
the safe nodes, the accumulated `code_errors`, and the accumulated
`code_warnings`. -/
def validate_all_nodes (step_idx : Nat) :
    List AstNode → List AstNode × List String × List String
  | [] => ([], [], [])
  | n :: ns =>
    let r := is_node_safe_for_codegen n step_idx
    let rest := validate_all_nodes (step_idx + 1) ns
    if r.1 then (n :: rest.1, r.2 ++ rest.2.1, rest.2.2)
    else (rest.1, r.2 ++ rest.2.1,
      ("Step " ++ toString step_idx ++ ": Node failed safety check, skipped from code generation")
        :: rest.2.2)

/-- `_analyze_selector_usage`: how many locator-action nodes carry the
selector `s`. -/
def selector_usage_count (nodes : List AstNode) (s : String) : Nat :=
  (nodes.filter (fun n => opt_truthy n.selector ∧ n.action ∈ locator_actions
    ∧ opt_str n.selector = s)).length

/-- `self.selector_usage_count.get(selector, 1)`: the usage-count lookup
with its dictionary default of 1 (a selector never counted has no entry). -/
def usage_total (nodes : List AstNode) (s : String) : Nat :=
  let c := selector_usage_count nodes s
  if c = 0 then 1 else c

/-- `JavaScriptCodeGenerator._get_locator_with_occurrence`: `.nth(i)` when
the selector's total count exceeds 1, `.first()` otherwise. -/
def get_locator_with_occurrence (total : String → Nat) (selector : String) (occurrence : Nat) : String :=
  if selector = "" then "page.locator(" ++ sq ++ "body" ++ sq ++ ")"
  else
    let esc := js_escape_sel selector
    if 1 < total selector then
      "page.locator(" ++ sq ++ esc ++ sq ++ ").nth(" ++ toString occurrence ++ ")"
    else
      "page.locator(" ++ sq ++ esc ++ sq ++ ").first()"

/-- The emission walk of `generate_code_from_ast`: skip the first
`navigate` node, and give every node whose selector is truthy the number
of previously walked nodes with that selector as its occurrence (other
nodes get 0).  Produces `(enumerate index, node, occurrence)` triples. -/
def emission_plan : Bool → (String → Nat) → Nat → List AstNode → List (Nat × AstNode × Nat)
  | _, _, _, [] => []
  | skipFirstNav, counter, idx, n :: ns =>
    if skipFirstNav ∧ n.action = .navigate then emission_plan false counter (idx + 1) ns
    else
      let truthy := opt_truthy n.selector
      let s := opt_str n.selector
      let occ := if truthy then counter s else 0
      let counter' := if truthy then (fun t => if t = s then counter t + 1 else counter t) else counter
      (idx, n, occ) :: emission_plan skipFirstNav counter' (idx + 1) ns

/-- The locator strings of the emitted locator-action blocks, in emission
order (the outputs of `_get_locator_with_occurrence` the script embeds). -/
def emitted_locators (nodes : List AstNode) : List String :=
  let total := usage_total nodes
  (emission_plan true (fun _ => 0) 0 nodes).filterMap (fun e =>
    if e.2.1.action ∈ locator_actions then
      some (get_locator_with_occurrence total (opt_str e.2.1.selector) e.2.2)
    else none)

/-- `_extract_base_url_from_intents`: scheme and host of the first
intent's original-step URL. -/
def extract_base_url_from_intents : Option (List CleanedIntent) → Option String
  | none => none
  | some [] => none
  | some (i :: _) =>
    let url := if i.original_step.clean_url ≠ "" then i.original_step.clean_url
               else i.original_step.url
    if url ≠ "" then
      let p := urlparse url
      some (p.scheme ++ "://" ++ p.netloc)
    else none

/-- `_extract_base_url_from_ast`: scheme and host of the first node (of
any action type) carrying a truthy URL. -/
def extract_base_url_from_ast : List AstNode → Option String
  | [] => none
  | n :: ns =>
    if opt_truthy n.url then
      let p := urlparse (opt_str n.url)
      some (p.scheme ++ "://" ++ p.netloc)
    else extract_base_url_from_ast ns

/-- Python `a or b` on optional strings (`None` and `""` are falsy). -/
def py_or_opt (a : Option String) (b : Option String) : Option String :=
  match a with
  | some s => if s ≠ "" then some s else b
  | none => b

/-- The `base_url` chain of `generate_code_from_ast`:
`first_url or intents-base or ast-base or "https://www.example.com"`. -/
def compute_base_url (safe_nodes : List AstNode) (intents : Option (List CleanedIntent))
    (first_url : Option String) : String :=
  (py_or_opt first_url
    (py_or_opt (extract_base_url_from_intents intents)
      (py_or_opt (extract_base_url_from_ast safe_nodes)
        (some "https://www.example.com")))).getD ""

/-- The URL chosen inside `_generate_initial_navigation_block`: the given
`base_url` when truthy, else the first `navigate` node's URL, else the
placeholder. -/
def gen_initial_navigation_url (ast_nodes : List AstNode) (base_url : String) : String :=
  if base_url ≠ "" then base_url
  else
    let nav_url := match ast_nodes.find? (fun n => n.action = .navigate) with
      | some n => opt_str n.url
      | none => ""
    if nav_url ≠ "" then nav_url else "https://www.example.com"

/-- The 8-space indent of `_generate_action`. -/
def ind : String := "        "

/-- `JavaScriptCodeGenerator._generate_initial_navigation_block`. -/
def gen_initial_navigation_block (ast_nodes : List AstNode) (base_url : String) : String :=
  let escaped_url := escape_string (gen_initial_navigation_url ast_nodes base_url)
  ind ++ "// Initial Navigation: Load the base page\n" ++
  ind ++ "console.log(\"Initial: Navigating to " ++ escaped_url ++ "...\");\n" ++
  ind ++ "try \x7b\n" ++
  ind ++ "    await page.goto(\"" ++ escaped_url ++ "\", \x7b waitUntil: \"load\", timeout: 30000 \x7d);\n" ++
  ind ++ "    await page.waitForTimeout(1000);\n" ++
  ind ++ "    console.log(\"  [OK] Page loaded successfully\");\n" ++
  ind ++ "\x7d catch (error) \x7b\n" ++
  ind ++ "    console.warn(\"  [WARN] Page load warning: \" + error.message + \" (continuing anyway)\");\n" ++
  ind ++ "\x7d"

/-- The shared shape of the locator-action blocks of `_generate_action`
(click/fill/select/hover): comment, log, locator, bounded wait, the
action line, optional settle wait, success log, throw on failure. -/
def gen_locator_block (step_index : Nat) (comment log : String) (locator_code : String)
    (action_line : String) (settle : Bool) (ok fail : String) : String :=
  ind ++ "// Step " ++ toString step_index ++ ": " ++ comment ++ "\n" ++
  ind ++ "console.log(\"Step " ++ toString step_index ++ ": " ++ log ++ "\");\n" ++
  ind ++ "try \x7b\n" ++
  ind ++ "    const locator = " ++ locator_code ++ ";\n" ++
  ind ++ "    await locator.waitFor(\x7b state: \"visible\", timeout: 5000 \x7d);\n" ++
  ind ++ "    " ++ action_line ++ "\n" ++
  (if settle then ind ++ "    await page.waitForTimeout(500);\n" else "") ++
  ind ++ "    console.log(\"  [OK] " ++ ok ++ "\");\n" ++
  ind ++ "\x7d catch (error) \x7b\n" ++
  ind ++ "    throw new Error(\"" ++ fail ++ " failed at step " ++ toString step_index
    ++ ": \" + error.message);\n" ++
  ind ++ "\x7d"

/-- `JavaScriptCodeGenerator._generate_action`: the emitted block for one
node, given its enumerate index and selector occurrence. -/
def gen_action (total : String → Nat) (node : AstNode) (step_index : Nat) (occurrence : Nat) : String :=
  match node.action with
  | .navigate =>
    let url := escape_string (opt_str node.url)
    ind ++ "// Step " ++ toString step_index ++ ": Navigate to " ++ url ++ "\n" ++
    ind ++ "console.log(\"Step " ++ toString step_index ++ ": Navigating to " ++ url ++ "...\");\n" ++
    ind ++ "try \x7b\n" ++
    ind ++ "    await page.goto(\"" ++ url ++ "\", \x7b waitUntil: \"networkidle\" \x7d);\n" ++
    ind ++ "    console.log(\"  [OK] Navigation complete\");\n" ++
    ind ++ "\x7d catch (error) \x7b\n" ++
    ind ++ "    throw new Error(\"Navigation failed at step " ++ toString step_index
      ++ ": \" + error.message);\n" ++
    ind ++ "\x7d"
  | .click =>
    gen_locator_block step_index "Click on element" "Clicking on element..."
      (get_locator_with_occurrence total (opt_str node.selector) occurrence)
      "await locator.click();" true "Click action complete" "Click"
  | .fill =>
    gen_locator_block step_index "Fill input field" "Filling input field..."
      (get_locator_with_occurrence total (opt_str node.selector) occurrence)
      ("await locator.fill(\"" ++ escape_string (opt_str node.value) ++ "\");") false
      "Fill action complete" "Fill"
  | .select =>
    gen_locator_block step_index "Select option" "Selecting option..."
      (get_locator_with_occurrence total (opt_str node.selector) occurrence)
      ("await locator.selectOption(\"" ++ escape_string (opt_str node.value) ++ "\");") false
      "Select action complete" "Select"
  | .wait =>
    let wait_time := if node.wait_time = 0 then 5000 else node.wait_time
    ind ++ "// Step " ++ toString step_index ++ ": Wait for element\n" ++
    ind ++ "console.log(\"Step " ++ toString step_index ++ ": Waiting "
      ++ toString wait_time ++ "ms...\");\n" ++
    ind ++ "try \x7b\n" ++
    ind ++ "    await page.waitForTimeout(" ++ toString wait_time ++ ");\n" ++
    ind ++ "    console.log(\"  [OK] Wait complete\");\n" ++
    ind ++ "\x7d catch (error) \x7b\n" ++
    ind ++ "    throw new Error(\"Wait failed at step " ++ toString step_index
      ++ ": \" + error.message);\n" ++
    ind ++ "\x7d"
  | .scroll =>
    ind ++ "// Step " ++ toString step_index ++ ": Scroll page\n" ++
    ind ++ "console.log(\"Step " ++ toString step_index ++ ": Scrolling down...\");\n" ++
    ind ++ "try \x7b\n" ++
    ind ++ "    await page.evaluate(() => window.scrollBy(0, window.innerHeight));\n" ++
    ind ++ "    await page.waitForTimeout(500);\n" ++
    ind ++ "    console.log(\"  [OK] Scroll complete\");\n" ++
    ind ++ "\x7d catch (error) \x7b\n" ++
    ind ++ "    throw new Error(\"Scroll failed at step " ++ toString step_index
      ++ ": \" + error.message);\n" ++
    ind ++ "\x7d"
  | .hover =>
    gen_locator_block step_index "Hover on element" "Hovering on element..."
      (get_locator_with_occurrence total (opt_str node.selector) occurrence)
      "await locator.hover();" false "Hover complete" "Hover"
  | .press =>
    let key := if opt_truthy node.value then opt_str node.value else "Enter"
    ind ++ "// Step " ++ toString step_index ++ ": Press key\n" ++
    ind ++ "console.log(\"Step " ++ toString step_index ++ ": Pressing " ++ key ++ "...\");\n" ++
    ind ++ "try \x7b\n" ++
    ind ++ "    await page.press(\"body\", \"" ++ key ++ "\");\n" ++
    ind ++ "    await page.waitForTimeout(500);\n" ++
    ind ++ "    console.log(\"  [OK] Key press complete\");\n" ++
    ind ++ "\x7d catch (error) \x7b\n" ++
    ind ++ "    throw new Error(\"Key press failed at step " ++ toString step_index
      ++ ": \" + error.message);\n" ++
    ind ++ "\x7d"
  | .keyboard =>
    let keys := if opt_truthy node.value then opt_str node.value else ""
    ind ++ "// Step " ++ toString step_index ++ ": Type text\n" ++
    ind ++ "console.log(\"Step " ++ toString step_index ++ ": Typing text...\");\n" ++
    ind ++ "try \x7b\n" ++
    ind ++ "    await page.keyboard.type(\"" ++ escape_string keys ++ "\");\n" ++
    ind ++ "    console.log(\"  [OK] Text input complete\");\n" ++
    ind ++ "\x7d catch (error) \x7b\n" ++
    ind ++ "    throw new Error(\"Text input failed at step " ++ toString step_index
      ++ ": \" + error.message);\n" ++
    ind ++ "\x7d"
  | .screenshot =>
    let filename := "screenshot_step_" ++ toString step_index ++ ".png"
    ind ++ "// Step " ++ toString step_index ++ ": Take screenshot\n" ++
    ind ++ "console.log(\"Step " ++ toString step_index ++ ": Taking screenshot...\");\n" ++
    ind ++ "try \x7b\n" ++
    ind ++ "    await page.screenshot(\x7b path: \"" ++ filename ++ "\" \x7d);\n" ++
    ind ++ "    console.log(\"  [OK] Screenshot saved to " ++ filename ++ "\");\n" ++
    ind ++ "\x7d catch (error) \x7b\n" ++
    ind ++ "    throw new Error(\"Screenshot failed at step " ++ toString step_index
      ++ ": \" + error.message);\n" ++
    ind ++ "\x7d"

/-- The fixed header lines of the generated script. -/
def header_lines : List String :=
  ["// Auto-generated Playwright JavaScript test script",
   "// This script uses Playwright" ++ sq ++ "s high-level APIs with automatic waiting",
   "// All elements are located by ID or class name with proper handling for duplicates",
   "const \x7b chromium \x7d = require(" ++ sq ++ "playwright" ++ sq ++ ");",
   "",
   "async function runTests() \x7b",
   "    const browser = await chromium.launch();",
   "    const page = await browser.newPage();",
   "    let lastError = null;"]

/-- The fixed footer lines of the generated script. -/
def footer_lines : List String :=
  ["",
   "        console.log(" ++ sq ++ "[OK] All steps completed successfully" ++ sq ++ ");",
   "    \x7d catch (error) \x7b",
   "        console.error(" ++ sq ++ "[FAIL] Test execution failed:" ++ sq ++ ", error.message);",
   "        lastError = error;",
   "    \x7d finally \x7b",
   "        await browser.close();",
   "    \x7d",
   "\x7d",
   "",
   "runTests().catch(error => \x7b",
   "    console.error(" ++ sq ++ "[FAIL] Unrecoverable error:" ++ sq ++ ", error);",
   "    process.exit(1);",
   "\x7d);"]

/-- Result of `generate_code_from_ast`: the script text and the
`code_errors`/`code_warnings` accumulators. -/
structure CodegenResult where
  script : String
  errors : List String
  warnings : List String
deriving DecidableEq

/-- `JavaScriptCodeGenerator.generate_code_from_ast`: returns `""` with
no recorded error on empty input; re-validates every node, returning `""`
plus a hard error entry when no node survives; otherwise assembles the
script from the header, the initial navigation block for the computed
base URL, one block per non-skipped node, and the footer. -/
def generate_code_from_ast (ast_nodes : List AstNode) (intents : Option (List CleanedIntent))
    (first_url : Option String) : CodegenResult :=
  if ast_nodes.isEmpty then { script := "", errors := [], warnings := [] }
  else
    let V := validate_all_nodes 0 ast_nodes
    let safe_nodes := V.1
    if safe_nodes.isEmpty then
      { script := "", errors := V.2.1 ++ ["No valid AST nodes passed safety checks"],
        warnings := V.2.2 }
    else
      let total := usage_total safe_nodes
      let base_url := compute_base_url safe_nodes intents first_url
      let initial_block := gen_initial_navigation_block safe_nodes base_url
      let body := (emission_plan true (fun _ => 0) 0 safe_nodes).filterMap (fun e =>
        let g := gen_action total e.2.1 e.1 e.2.2
        if g ≠ "" then some g else none)
      let lines := header_lines ++ ["", "    try \x7b", ""]
        ++ (if initial_block ≠ "" then [initial_block, ""] else [])
        ++ body ++ footer_lines
      { script := String.intercalate "\n" lines, errors := V.2.1, warnings := V.2.2 }

/-- The escaped URL interpolated into the initial `page.goto` call of the
emitted script, for a given input node list, intents list and override. -/
def emitted_initial_url (ast_nodes : List AstNode) (intents : Option (List CleanedIntent))
    (first_url : Option String) : String :=
  let safe_nodes := (validate_all_nodes 0 ast_nodes).1
  escape_string (gen_initial_navigation_url safe_nodes
    (compute_base_url safe_nodes intents first_url))

/-- Outcome of `PlaywrightScriptGenerator.run_pipeline` (main.py) at its
staged safety checks, given the validated intents and the AST nodes the
converter produced; the stages beyond code generation are external
collaborators. -/
inductive PipelineOutcome
  | aborted (reason : String)
  | completed
deriving DecidableEq

/-- The stage checks of `run_pipeline`: abort when no intent survived
validation, when no AST node was built, or when code generation produced
empty output (the generator is called with the validated intents). -/
def run_pipeline_status (intents : List CleanedIntent) (ast_nodes : List AstNode) :
    PipelineOutcome :=
  if intents.isEmpty then .aborted "No valid intents after validation"
  else if ast_nodes.isEmpty then .aborted "No valid AST nodes after conversion"
  else
    let code := (generate_code_from_ast ast_nodes (some intents) none).script
    if code = "" ∨ py_strip code = "" then .aborted "Code generation failed"
    else .completed

/-! ## Helper lemmas -/

/-- The retained list of the dedup loop is a subsequence of its input. -/
theorem dedup_go_sublist (l : List CleanedIntent) :
    ∀ prev, (dedup_go prev l).1.Sublist l := by
  induction l with
  | nil => intro prev; simp [dedup_go]
  | cons x xs ih =>
    intro prev
    by_cases h : same_action x prev = true
    · simpa [dedup_go, h] using List.Sublist.cons x (ih prev)
    · simpa [dedup_go, h] using List.Sublist.cons₂ x (ih x)

/-- Deduplication never lengthens the list. -/
theorem dedup_length_le (l : List CleanedIntent) :
    (deduplicate_consecutive_actions l).1.length ≤ l.length := by
  cases l with
  | nil => simp [deduplicate_consecutive_actions]
  | cons x xs =>
    simpa [deduplicate_consecutive_actions] using (dedup_go_sublist xs x).length_le

/-- Adjacent items retained by the dedup loop never satisfy the duplicate
test, starting from the previous retained item. -/
theorem dedup_go_chain (l : List CleanedIntent) :
    ∀ prev, List.Chain (fun p q => same_action q p = false) prev (dedup_go prev l).1 := by
  induction l with
  | nil => intro prev; simp [dedup_go]
  | cons x xs ih =>
    intro prev
    by_cases h : same_action x prev = true
    · simpa [dedup_go, h] using ih prev
    · have hx : same_action x prev = false := by simpa using h
      simp only [dedup_go, hx, Bool.false_eq_true, if_false]
      exact List.Chain.cons hx (ih x)

/-- The per-step loop accounts for every input: accepted plus removed
equals the input count. -/
theorem validate_loop_count (l : List (Option IntentObj)) :
    ∀ i, (validate_loop i l).1.length + (validate_loop i l).2.1.length = l.length := by
  induction l with
  | nil => intro i; simp [validate_loop]
  | cons o os ih =>
    intro i
    have h2 := ih (i + 1)
    cases h : (validate_single_intent o i).cleaned <;>
      simp [validate_loop, h] <;> omega

/-- A base URL extracted from the node list is never the empty string
(it always contains `://`). -/
theorem extract_base_url_from_ast_ne_empty (l : List AstNode) :
    ∀ b, extract_base_url_from_ast l = some b → b ≠ "" := by
  induction l with
  | nil => intro b h; simp [extract_base_url_from_ast] at h
  | cons n ns ih =>
    intro b h
    by_cases ht : opt_truthy n.url = true
    · simp only [extract_base_url_from_ast, ht, if_true, Option.some.injEq] at h
      intro hb
      rw [hb] at h
      have h4 := congrArg String.length h
      simp only [String.length_append] at h4
      have h3 : ("://" : String).length = 3 := rfl
      have h5 : ("" : String).length = 0 := rfl
      omega
    · simp only [extract_base_url_from_ast, ht] at h
      exact ih b (by simpa [Bool.not_eq_true] using h)

/-! ## Claims -/

/-- C1, counterexample: the hints-based chooser prefers `name` over
`data-testid`, so for hints with no id, a name and a data-testid, the
result is the name selector, not a data-testid attribute selector as the
claimed priority id > data-testid > name demands. -/
theorem C1_counterexample :
    build_selector_from_hints { name := "n", test_id := "t" }
        = "[name=" ++ sq ++ "n" ++ sq ++ "]"
    ∧ build_selector_from_hints { name := "n", test_id := "t" }
        ≠ "[data-testid=" ++ sq ++ "t" ++ sq ++ "]" := by
  exact ⟨by decide, by decide⟩

/-- C1, amended: `_build_selector_from_hints` maps hints to exactly one
selector with the priority id > name > class (first token only) >
data-testid > aria-label, and returns the empty string — not the bare
tag — when no source applies. -/
theorem C1_hints_selector_priority :
    (∀ h : Hints, h.id ≠ "" → build_selector_from_hints h = "#" ++ h.id)
  ∧ (∀ h : Hints, h.id = "" → h.name ≠ "" →
      build_selector_from_hints h = "[name=" ++ sq ++ h.name ++ sq ++ "]")
  ∧ (∀ (h : Hints) (c : String) (cs : List String), h.id = "" → h.name = "" →
      py_split_ws h.«class» = c :: cs → build_selector_from_hints h = "." ++ c)
  ∧ (∀ h : Hints, h.id = "" → h.name = "" → py_split_ws h.«class» = [] → h.test_id ≠ "" →
      build_selector_from_hints h = "[data-testid=" ++ sq ++ h.test_id ++ sq ++ "]")
  ∧ (∀ h : Hints, h.id = "" → h.name = "" → py_split_ws h.«class» = [] → h.test_id = "" →
      h.aria_label ≠ "" →
      build_selector_from_hints h = "[aria-label=" ++ sq ++ h.aria_label ++ sq ++ "]")
  ∧ (∀ h : Hints, h.id = "" → h.name = "" → py_split_ws h.«class» = [] → h.test_id = "" →
      h.aria_label = "" → build_selector_from_hints h = "") := by
  refine ⟨?_, ?_, ?_, ?_, ?_, ?_⟩
  · intro h h1; simp [build_selector_from_hints, h1]
  · intro h h1 h2; simp [build_selector_from_hints, h1, h2]
  · intro h c cs h1 h2 h3
    by_cases hc : h.«class» = ""
    · rw [hc] at h3
      rw [show py_split_ws "" = [] from rfl] at h3
      cases h3
    · simp [build_selector_from_hints, h1, h2, hc, h3]
  · intro h h1 h2 h3 h4
    by_cases hc : h.«class» = "" <;>
      simp [build_selector_from_hints, hints_tail, h1, h2, h3, h4, hc]
  · intro h h1 h2 h3 h4 h5
    by_cases hc : h.«class» = "" <;>
      simp [build_selector_from_hints, hints_tail, h1, h2, h3, h4, h5, hc]
  · intro h h1 h2 h3 h4 h5
    by_cases hc : h.«class» = "" <;>
      simp [build_selector_from_hints, hints_tail, h1, h2, h3, h4, h5, hc]

/-- C1, witness: the amended priority at concrete hints (the hint pairs
of the spec's own determinism example). -/
theorem C1_witness :
    build_selector_from_hints { id := "a", «class» := "b" } = "#a"
    ∧ build_selector_from_hints { name := "n", «class» := "b c" }
        = "[name=" ++ sq ++ "n" ++ sq ++ "]"
    ∧ build_selector_from_hints { test_id := "t" }
        = "[data-testid=" ++ sq ++ "t" ++ sq ++ "]" := by
  refine ⟨C1_hints_selector_priority.1 _ (by decide), ?_,
    C1_hints_selector_priority.2.2.2.1 _ rfl rfl (by decide) (by decide)⟩
  exact C1_hints_selector_priority.2.1 _ rfl (by decide)

/-- C2: dedup removes an accepted intent exactly when its
(event_type, selector, intent) triple matches the immediately preceding
retained item: a repeat separated only by an already-dropped item still
collapses (three matching items collapse to one), an A, B, A sequence
with B differing in selector is fully retained, the result is a
subsequence of the input, and no two adjacent retained items match. -/
theorem C2_dedup_last_retained :
    (∀ a b c : CleanedIntent, same_action b a = true → same_action c a = true →
      (deduplicate_consecutive_actions [a, b, c]).1 = [a])
  ∧ (∀ a b : CleanedIntent, a.selector ≠ b.selector →
      (deduplicate_consecutive_actions [a, b, a]).1 = [a, b, a])
  ∧ (∀ l : List CleanedIntent, (deduplicate_consecutive_actions l).1.Sublist l)
  ∧ (∀ l : List CleanedIntent,
      List.Chain' (fun p q => same_action q p = false) (deduplicate_consecutive_actions l).1) := by
  refine ⟨?_, ?_, ?_, ?_⟩
  · intro a b c h1 h2; simp [deduplicate_consecutive_actions, dedup_go, h1, h2]
  · intro a b h
    have hba : same_action b a = false := by
      simp [same_action]; intro _ h'; exact absurd h'.symm h
    have hab : same_action a b = false := by
      simp [same_action]; intro _ h'; exact absurd h' h
    simp [deduplicate_consecutive_actions, dedup_go, hba, hab]
  · intro l
    cases l with
    | nil => simp [deduplicate_consecutive_actions]
    | cons x xs =>
      simpa [deduplicate_consecutive_actions] using List.Sublist.cons₂ x (dedup_go_sublist xs x)
  · intro l
    cases l with
    | nil => simp [deduplicate_consecutive_actions]
    | cons x xs =>
      show List.Chain' (fun p q => same_action q p = false) (x :: (dedup_go x xs).1)
      exact dedup_go_chain xs x

/-- C2, witness: the dedup behavior at concrete cleaned intents. -/
theorem C2_witness :
    (deduplicate_consecutive_actions
      [{ step_index := 0, event_type := "click", intent := "Click", selector := some ".a",
         original_step := {}, is_context_event := false },
       { step_index := 1, event_type := "click", intent := "Click", selector := some ".a",
         original_step := {}, is_context_event := false },
       { step_index := 2, event_type := "click", intent := "Click", selector := some ".a",
         original_step := {}, is_context_event := false }]).1
      = [{ step_index := 0, event_type := "click", intent := "Click", selector := some ".a",
           original_step := {}, is_context_event := false }]
    ∧ (deduplicate_consecutive_actions
      [{ step_index := 0, event_type := "click", intent := "Click", selector := some ".a",
         original_step := {}, is_context_event := false },
       { step_index := 1, event_type := "click", intent := "Click", selector := some ".b",
         original_step := {}, is_context_event := false },
       { step_index := 0, event_type := "click", intent := "Click", selector := some ".a",
         original_step := {}, is_context_event := false }]).1
      = [{ step_index := 0, event_type := "click", intent := "Click", selector := some ".a",
           original_step := {}, is_context_event := false },
         { step_index := 1, event_type := "click", intent := "Click", selector := some ".b",
           original_step := {}, is_context_event := false },
         { step_index := 0, event_type := "click", intent := "Click", selector := some ".a",
           original_step := {}, is_context_event := false }] := by
  exact ⟨C2_dedup_last_retained.1 _ _ _ (by decide) (by decide),
    C2_dedup_last_retained.2.1
      { step_index := 0, event_type := "click", intent := "Click", selector := some ".a",
        original_step := {}, is_context_event := false }
      { step_index := 1, event_type := "click", intent := "Click", selector := some ".b",
        original_step := {}, is_context_event := false }
      (by decide)⟩

/-- C3, counterexample: with no override and no intents, for the single
navigate node with URL `https://x.test/path`, the emitted initial
page-load URL is the host base `https://x.test`, not the first navigate
node's URL. -/
theorem C3_counterexample :
    emitted_initial_url [{ action := .navigate, url := some "https://x.test/path" }] none none
      = "https://x.test"
    ∧ (([{ action := .navigate, url := some "https://x.test/path" }] : List AstNode).find?
        (fun n => n.action = .navigate)).map (fun n => opt_str n.url)
      = some "https://x.test/path"
    ∧ ("https://x.test" : String) ≠ "https://x.test/path" := by
  exact ⟨by decide, by decide, by decide⟩

/-- A `scheme://host` base string is never empty. -/
theorem scheme_host_ne_empty (s t : String) : s ++ "://" ++ t ≠ "" := by
  intro h
  have h4 := congrArg String.length h
  simp only [String.length_append] at h4
  have h3 : ("://" : String).length = 3 := rfl
  have h5 : ("" : String).length = 0 := rfl
  omega

/-- C3, amended: the initial navigation target priority is a non-empty
explicit override, else the `scheme://host` base of the first intent's
original-step URL (`clean_url` preferred over `url`), else the
`scheme://host` base of the first re-validated node carrying a URL — of
any action type, not the full first-navigate URL — else the fixed
placeholder `https://www.example.com`; the URL is embedded JS-escaped. -/
theorem C3_initial_url_priority :
    (∀ (nodes : List AstNode) (intents : Option (List CleanedIntent)) (u : String),
       u ≠ "" → emitted_initial_url nodes intents (some u) = escape_string u)
  ∧ (∀ (nodes : List AstNode) (i : CleanedIntent) (rest : List CleanedIntent),
       (if i.original_step.clean_url ≠ "" then i.original_step.clean_url
        else i.original_step.url) ≠ "" →
       emitted_initial_url nodes (some (i :: rest)) none
         = escape_string
             ((urlparse (if i.original_step.clean_url ≠ "" then i.original_step.clean_url
                 else i.original_step.url)).scheme
               ++ "://"
               ++ (urlparse (if i.original_step.clean_url ≠ "" then i.original_step.clean_url
                 else i.original_step.url)).netloc))
  ∧ (∀ (nodes : List AstNode) (intents : Option (List CleanedIntent)) (b : String),
       extract_base_url_from_intents intents = none →
       extract_base_url_from_ast (validate_all_nodes 0 nodes).1 = some b →
       emitted_initial_url nodes intents none = escape_string b)
  ∧ (∀ (nodes : List AstNode) (intents : Option (List CleanedIntent)),
       extract_base_url_from_intents intents = none →
       extract_base_url_from_ast (validate_all_nodes 0 nodes).1 = none →
       emitted_initial_url nodes intents none = "https://www.example.com") := by
  refine ⟨?_, ?_, ?_, ?_⟩
  · intro nodes intents u hu
    simp [emitted_initial_url, compute_base_url, py_or_opt, gen_initial_navigation_url, hu]
  · intro nodes i rest hu
    by_cases hc : i.original_step.clean_url = ""
    · have hu' : i.original_step.url ≠ "" := by simpa [hc] using hu
      have hb := scheme_host_ne_empty (urlparse i.original_step.url).scheme
        (urlparse i.original_step.url).netloc
      simp [emitted_initial_url, compute_base_url, py_or_opt, extract_base_url_from_intents,
        hc, hu', hb, gen_initial_navigation_url]
    · have hb := scheme_host_ne_empty (urlparse i.original_step.clean_url).scheme
        (urlparse i.original_step.clean_url).netloc
      simp [emitted_initial_url, compute_base_url, py_or_opt, extract_base_url_from_intents,
        hc, hb, gen_initial_navigation_url]
  · intro nodes intents b h1 h2
    have hb : b ≠ "" := extract_base_url_from_ast_ne_empty _ b h2
    simp [emitted_initial_url, compute_base_url, py_or_opt, h1, h2,
      gen_initial_navigation_url, hb]
  · intro nodes intents h1 h2
    simp [emitted_initial_url, compute_base_url, py_or_opt, h1, h2,
      gen_initial_navigation_url]
    decide

/-- C3, witness: the amended priority at concrete inputs: an explicit
override wins; with no override, the base is the host base of the first
intent's clean URL (path and query discarded); and an input with no URL
anywhere falls back to the placeholder. -/
theorem C3_witness :
    emitted_initial_url [{ action := .click, selector := some "#go" }] none
        (some "https://e.com/a") = escape_string "https://e.com/a"
    ∧ emitted_initial_url [{ action := .click, selector := some "#go" }]
        (some [{ step_index := 0, event_type := "click", intent := "Click",
                 selector := some "#go",
                 original_step := { clean_url := "https://shop.example/cart?p=1" },
                 is_context_event := false }]) none
      = "https://shop.example"
    ∧ emitted_initial_url [{ action := .click, selector := some "#go" }] none none
        = "https://www.example.com" := by
  refine ⟨C3_initial_url_priority.1 _ none "https://e.com/a" (by decide), ?_,
    C3_initial_url_priority.2.2.2 _ none (by decide) (by decide)⟩
  have h := C3_initial_url_priority.2.1 [{ action := .click, selector := some "#go" }]
    { step_index := 0, event_type := "click", intent := "Click", selector := some "#go",
      original_step := { clean_url := "https://shop.example/cart?p=1" },
      is_context_event := false } [] (by decide)
  rw [h]
  decide

/-- C4: the denylist entries written with a trailing `=` (`ref=`, `tag=`,
`crid=`, `sprefix=`, `rps=`, `lpg=`) can never prefix-match a parsed
query key, so `ref` and `tag` parameters survive URL cleaning, contrary
to the claim and to the function's own docstring; prefix entries such as
`utm_` do work. -/
theorem C4_tracking_denylist :
    strip_tracking_params "https://x.test/?ref=abc&q=1" = "https://x.test/?ref=abc&q=1"
    ∧ strip_tracking_params "https://x.test/?tag=z&a=b" = "https://x.test/?tag=z&a=b"
    ∧ strip_tracking_params "https://x.test/?utm_source=a&q=1" = "https://x.test/?q=1" := by
  exact ⟨by decide, by decide, by decide⟩

/-- Occurrence indices as the amended C5 claim states them: each node's
index is the number of earlier nodes in the emission walk with the same
selector, with the form chosen by `_get_locator_with_occurrence` from
the precomputed totals. -/
def spec_locators_go (total : String → Nat) (pre : List AstNode) : List AstNode → List String
  | [] => []
  | n :: ns =>
    let s := opt_str n.selector
    get_locator_with_occurrence total s
        ((pre.filter (fun m => opt_str m.selector = s)).length)
      :: spec_locators_go total (pre ++ [n]) ns

/-- On a walk of locator-action nodes with truthy selectors, the
occurrence counter of the emission loop equals the count of
previously-walked nodes with the same selector. -/
theorem emission_plan_locators (total : String → Nat) :
    ∀ (l : List AstNode) (counter : String → Nat) (pre : List AstNode) (idx : Nat),
      (∀ n ∈ l, n.action ∈ locator_actions ∧ opt_truthy n.selector) →
      (∀ s, counter s = (pre.filter (fun m => opt_str m.selector = s)).length) →
      (emission_plan true counter idx l).filterMap (fun e =>
        if e.2.1.action ∈ locator_actions then
          some (get_locator_with_occurrence total (opt_str e.2.1.selector) e.2.2)
        else none)
      = spec_locators_go total pre l := by
  intro l
  induction l with
  | nil => intro counter pre idx _ _; simp [emission_plan, spec_locators_go]
  | cons n ns ih =>
    intro counter pre idx hall hcount
    have hn := hall n (List.mem_cons_self n ns)
    have hmem : n.action = PwAction.click ∨ n.action = PwAction.fill
        ∨ n.action = PwAction.select ∨ n.action = PwAction.hover := by
      simpa [locator_actions] using hn.1
    have hnav : ¬ (n.action = PwAction.navigate) := by
      rcases hmem with h | h | h | h <;> simp [h]
    have hns : ∀ m ∈ ns, m.action ∈ locator_actions ∧ opt_truthy m.selector :=
      fun m hm => hall m (List.mem_cons_of_mem n hm)
    have hcount' : ∀ s,
        (if s = opt_str n.selector then counter s + 1 else counter s)
          = ((pre ++ [n]).filter (fun m => opt_str m.selector = s)).length := by
      intro s
      by_cases hs : s = opt_str n.selector
      · subst hs; simp [hcount (opt_str n.selector), List.filter_append]
      · simp [hs, hcount s, List.filter_append,
          show ¬ (opt_str n.selector = s) from fun h => hs h.symm]
    simp only [emission_plan, hn.2, if_true]
    rw [if_neg (by simp [hnav])]
    simp only [List.filterMap_cons, if_pos hn.1, spec_locators_go, List.cons.injEq]
    rw [hcount (opt_str n.selector)]
    exact ⟨rfl, ih _ _ (idx + 1) hns hcount'⟩

/-- C5, counterexample: for the pair scroll-on-`.item`, click-on-`.item`,
the selector `.item` is carried by two non-navigate/wait nodes, yet the
click is emitted in the single/first-match form, because the precomputed
totals only count click/fill/select/hover nodes. -/
theorem C5_counterexample :
    (([{ action := .scroll, selector := some ".item" },
       { action := .click, selector := some ".item" }] : List AstNode).filter
      (fun n => ¬ (n.action = .navigate ∨ n.action = .wait) ∧ n.selector = some ".item")).length = 2
    ∧ emitted_locators
        [{ action := .scroll, selector := some ".item" },
         { action := .click, selector := some ".item" }]
      = ["page.locator(" ++ sq ++ ".item" ++ sq ++ ").first()"] := by
  exact ⟨by decide, by decide⟩

/-- C5, amended: totals are precomputed only over click/fill/select/hover
nodes with truthy selectors; each emitted node's occurrence index counts
all previously walked nodes with the same selector; so on sequences made
only of such locator-action nodes, indices run 0, 1, 2, … per selector in
original order, a selector with total count above 1 gets explicit
`.nth(i)` references, and a selector with total count 1 gets the
first-match form. -/
theorem C5_occurrence_disambiguation :
    (∀ nodes : List AstNode,
       (∀ n ∈ nodes, n.action ∈ locator_actions ∧ opt_truthy n.selector) →
       emitted_locators nodes = spec_locators_go (usage_total nodes) [] nodes)
  ∧ (∀ (tot : String → Nat) (s : String) (occ : Nat), s ≠ "" → 1 < tot s →
       get_locator_with_occurrence tot s occ
         = "page.locator(" ++ sq ++ js_escape_sel s ++ sq ++ ").nth(" ++ toString occ ++ ")")
  ∧ (∀ (tot : String → Nat) (s : String) (occ : Nat), s ≠ "" → tot s ≤ 1 →
       get_locator_with_occurrence tot s occ
         = "page.locator(" ++ sq ++ js_escape_sel s ++ sq ++ ").first()")
  ∧ emitted_locators
      [{ action := .click, selector := some ".item" },
       { action := .click, selector := some ".item" },
       { action := .click, selector := some ".item" }]
    = ["page.locator(" ++ sq ++ ".item" ++ sq ++ ").nth(0)",
       "page.locator(" ++ sq ++ ".item" ++ sq ++ ").nth(1)",
       "page.locator(" ++ sq ++ ".item" ++ sq ++ ").nth(2)"]
  ∧ emitted_locators [{ action := .click, selector := some "#go" }]
    = ["page.locator(" ++ sq ++ "#go" ++ sq ++ ").first()"] := by
  refine ⟨?_, ?_, ?_, by decide, by decide⟩
  · intro nodes h
    exact emission_plan_locators (usage_total nodes) nodes (fun _ => 0) [] 0 h (fun s => rfl)
  · intro tot s occ hs ht
    simp [get_locator_with_occurrence, hs, ht]
  · intro tot s occ hs ht
    have : ¬ (1 < tot s) := by omega
    simp [get_locator_with_occurrence, hs, this]

/-- C5, witness: the amended characterization applied at concrete nodes
and totals. -/
theorem C5_witness :
    emitted_locators
        [{ action := .click, selector := some ".a" }, { action := .fill, selector := some ".a" }]
      = spec_locators_go
          (usage_total [{ action := .click, selector := some ".a" },
                        { action := .fill, selector := some ".a" }]) []
          [{ action := .click, selector := some ".a" }, { action := .fill, selector := some ".a" }]
    ∧ get_locator_with_occurrence
        (usage_total [{ action := .click, selector := some ".a" },
                      { action := .fill, selector := some ".a" }]) ".a" 1
      = "page.locator(" ++ sq ++ js_escape_sel ".a" ++ sq ++ ").nth(1)"
    ∧ get_locator_with_occurrence
        (usage_total [{ action := .click, selector := some "#go" }]) "#go" 0
      = "page.locator(" ++ sq ++ js_escape_sel "#go" ++ sq ++ ").first()" := by
  exact ⟨C5_occurrence_disambiguation.1 _ (by decide),
    C5_occurrence_disambiguation.2.1 _ ".a" 1 (by decide) (by decide),
    C5_occurrence_disambiguation.2.2.1 _ "#go" 0 (by decide) (by decide)⟩

/-- C6: an intent whose original step is a context event or has
normalized action `wait` is always accepted by
`validate_single_intent`, with the cleaned selector forced to the empty
string, whatever its text or selector. -/
theorem C6_context_intents_accepted :
    ∀ (obj : IntentObj) (idx : Nat),
      obj.original_step.is_context_event = true
        ∨ obj.original_step.normalized_action = "wait" →
      ((validate_single_intent (some obj) idx).cleaned.map (fun c => c.selector))
        = some (some "") := by
  intro obj idx h
  simp only [validate_single_intent]
  rw [if_pos h]
  rfl

/-- C6, witness: a context-event intent carrying a malformed selector and
empty text is still accepted with an empty selector. -/
theorem C6_witness :
    ((validate_single_intent (some
        { intent := "", event_type := "x", selector := "<bad>",
          original_step := { is_context_event := true } }) 0).cleaned.map
      (fun c => c.selector)) = some (some "") := by
  exact C6_context_intents_accepted _ 0 (Or.inl rfl)

/-- C7, counterexample: the emitter, handed an already-empty node
list — the case when every intent was rejected upstream — returns an
empty script with an empty error accumulator: no hard error is
recorded. -/
theorem C7_counterexample :
    (generate_code_from_ast [] none none).script = ""
    ∧ (generate_code_from_ast [] none none).errors = [] := by
  exact ⟨rfl, rfl⟩

/-- C7, amended: when the input node list is non-empty but no node
survives pre-emission re-validation, the emitter emits no script and
records the hard error; an already-empty input yields an empty script
with no recorded error, and the pipeline instead aborts earlier at the
no-valid-intents check; any run whose generated code is empty is
reported aborted at the code-generation stage. -/
theorem C7_empty_output_policy :
    (∀ (nodes : List AstNode) (intents : Option (List CleanedIntent)) (u : Option String),
       nodes ≠ [] → (validate_all_nodes 0 nodes).1 = [] →
       (generate_code_from_ast nodes intents u).script = ""
       ∧ "No valid AST nodes passed safety checks" ∈ (generate_code_from_ast nodes intents u).errors)
  ∧ (∀ ast_nodes : List AstNode,
       run_pipeline_status [] ast_nodes = .aborted "No valid intents after validation")
  ∧ (∀ (intents : List CleanedIntent) (nodes : List AstNode),
       intents ≠ [] → nodes ≠ [] →
       (generate_code_from_ast nodes (some intents) none).script = "" →
       run_pipeline_status intents nodes = .aborted "Code generation failed") := by
  refine ⟨?_, ?_, ?_⟩
  · intro nodes intents u h1 h2
    simp [generate_code_from_ast, h1, h2]
  · intro ast_nodes
    simp [run_pipeline_status]
  · intro intents nodes h1 h2 h3
    simp [run_pipeline_status, h1, h2, h3]

/-- C7, witness: one unsafe node (a click with no selector) yields the
empty script with the hard error recorded, and a non-empty pipeline whose
generated code is empty aborts at the code-generation stage. -/
theorem C7_witness :
    ((generate_code_from_ast [{ action := .click }] none none).script = ""
      ∧ "No valid AST nodes passed safety checks"
          ∈ (generate_code_from_ast [{ action := .click }] none none).errors)
    ∧ run_pipeline_status [] [{ action := .click }]
        = .aborted "No valid intents after validation"
    ∧ run_pipeline_status
        [{ step_index := 0, event_type := "click", intent := "Click", selector := some "#go",
           original_step := {}, is_context_event := false }]
        [{ action := .click }]
      = .aborted "Code generation failed" := by
  refine ⟨C7_empty_output_policy.1 [{ action := .click }] none none (by decide) (by decide),
    C7_empty_output_policy.2.1 _,
    C7_empty_output_policy.2.2
      [{ step_index := 0, event_type := "click", intent := "Click", selector := some "#go",
         original_step := {}, is_context_event := false }]
      [{ action := .click }] (by decide) (by decide) (by decide)⟩

/-- C8: the selector grammar checker is a pure boolean predicate — so it
is trivially idempotent on accepted strings — and rejects the empty
string, a whitespace-only string, empty brackets, HTML angle brackets,
and an element name followed by a lone `>`. -/
theorem C8_grammar_checker :
    (∀ s : String, is_valid_css_selector s = true → is_valid_css_selector s = true)
    ∧ is_valid_css_selector "" = false
    ∧ is_valid_css_selector "  " = false
    ∧ is_valid_css_selector "[]" = false
    ∧ is_valid_css_selector "<div>" = false
    ∧ is_valid_css_selector "p>" = false := by
  exact ⟨fun _ h => h, by decide, by decide, by decide, by decide, by decide⟩

/-- C8, witness: an accepted selector is accepted again unchanged. -/
theorem C8_witness : is_valid_css_selector "#go" = true := by
  exact C8_grammar_checker.1 "#go" (by decide)

/-- C9: a step dropped for an empty selector is recorded in
`removed_steps_details` with the generic reason "Unknown error", because
the cause-naming message ("Empty selector for click. Skipping step.")
goes to the warnings list, which the removal bookkeeping does not read. -/
theorem C9_empty_selector_reason :
    (validate_and_clean_intents
        [some { intent := "Click the submit button", event_type := "click" }]).2.removed_steps_details
      = [(0, "Unknown error")]
    ∧ (validate_single_intent
        (some { intent := "Click the submit button", event_type := "click" }) 0).warnings
      = ["Step 0: Empty selector for click. Skipping step."] := by
  exact ⟨by decide, by decide⟩

/-- C10: the validation report is arithmetically consistent: accepted
plus removed equals the input count, the post-dedup count is the accepted
count minus the dedup removals, and the returned list has the post-dedup
length. -/
theorem C10_report_consistency :
    ∀ intents : List (Option IntentObj),
      ((validate_and_clean_intents intents).2.total_valid_intents
          + (validate_and_clean_intents intents).2.removed_by_validation
        = (validate_and_clean_intents intents).2.total_input_intents)
      ∧ ((validate_and_clean_intents intents).2.total_after_dedup
        = (validate_and_clean_intents intents).2.total_valid_intents
            - (validate_and_clean_intents intents).2.removed_by_dedup)
      ∧ (validate_and_clean_intents intents).1.length
        = (validate_and_clean_intents intents).2.total_after_dedup := by
  intro intents
  have h1 := validate_loop_count intents 0
  have h2 := dedup_length_le (validate_loop 0 intents).1
  refine ⟨?_, ?_, rfl⟩
  · simpa [validate_and_clean_intents] using h1
  · simp only [validate_and_clean_intents]
    omega

end ScriptGen
